import Mathlib

/-
  Shallow embedding of src/pony/dbproviders/postgres.py.

  Conventions used throughout:
  - Python byte strings and database wire text are `List Nat` of byte values.
  - Fallible Python code is embedded as `Except PyError _`.
  - Python exact decimals are embedded as rationals.
-/

/-- Python exception kinds raised by the embedded code. -/
inductive PyError where
  | typeError
  | valueError
  | assertionError
  | unicodeDecodeError
  | databaseError
  deriving DecidableEq

deriving instance DecidableEq for Except

/-- True when an Except value is an error. -/
def isError {e a : Type} : Except e a → Bool
  | .error _ => true
  | .ok _ => false

/-- Python truthiness of an optional integer: None and 0 are falsy.
    Embeds the pattern `if converter.min_val and ...` from the source. -/
def truthyInt : Option Int → Bool
  | none => false
  | some m => m != 0

/-- Whether pat is a leading segment of the second list. -/
def listStartsWith : List Char → List Char → Bool
  | [], _ => true
  | _ :: _, [] => false
  | p :: ps, c :: cs => p == c && listStartsWith ps cs

/-- Python substring containment, `pat in s` for strings. -/
def containsSub (pat : List Char) : List Char → Bool
  | [] => listStartsWith pat []
  | c :: cs => listStartsWith pat (c :: cs) || containsSub pat cs

/- ------------------------------------------------------------------
   Binary escape codec (postgres.py lines 317-325 and BlobConverter)
   ------------------------------------------------------------------ -/

/-- Embeds the char2oct lookup table built at lines 317-323: a printable
    byte (32..126) maps to itself, except backslash (92) which maps to a
    doubled backslash; every other byte maps to a 4-byte backslash-octal
    escape, the last three octal digits of the value (the table is only
    ever applied to byte values below 256). -/
def char2oct (i : Nat) : List Nat :=
  if i = 92 then [92, 92]
  else if 31 < i && i < 127 then [i]
  else [92, 48 + i / 64 % 8, 48 + i / 8 % 8, 48 + i % 8]

/-- Is the byte an ASCII octal digit, the character class of oct_re at line 325. -/
def isOctDigitB (c : Nat) : Bool := 48 ≤ c && c ≤ 55

/-- Numeric value of a three-octal-digit escape body. -/
def octVal (a b c : Nat) : Nat := (a - 48) * 64 + (b - 48) * 8 + (c - 48)

/-- Embeds oct_re.sub at line 342: leftmost non-overlapping occurrences of a
    backslash followed by three octal digits are replaced by the escaped byte;
    the search resumes after each match. -/
def octSub : List Nat → List Nat
  | 92 :: a :: b :: c :: rest =>
    if isOctDigitB a && isOctDigitB b && isOctDigitB c then
      octVal a b c :: octSub rest
    else
      92 :: octSub (a :: b :: c :: rest)
  | c :: rest => c :: octSub rest
  | [] => []

/-- Embeds val.replace of a doubled backslash by a single backslash at
    line 342: left-to-right non-overlapping replacement. -/
def collapseDoubledBackslashes : List Nat → List Nat
  | 92 :: 92 :: rest => 92 :: collapseDoubledBackslashes rest
  | c :: rest => c :: collapseDoubledBackslashes rest
  | [] => []

/-- Value of an ASCII hex digit byte, if it is one. -/
def hexVal (c : Nat) : Option Nat :=
  if 48 ≤ c && c ≤ 57 then some (c - 48)
  else if 97 ≤ c && c ≤ 102 then some (c - 87)
  else if 65 ≤ c && c ≤ 70 then some (c - 55)
  else none

/-- Embeds binascii.unhexlify: pairs of hex digits to bytes, failing on odd
    length or a non-hex byte. -/
def unhexlify : List Nat → Option (List Nat)
  | [] => some []
  | [_] => none
  | a :: b :: rest =>
    match hexVal a, hexVal b, unhexlify rest with
    | some x, some y, some r => some ((x * 16 + y) :: r)
    | _, _, _ => none

namespace BlobConverter

/-- Embeds BlobConverter.py2sql at lines 337-339: every byte of the buffer
    is replaced by its char2oct entry and the pieces are concatenated. -/
def py2sql (val : List Nat) : List Nat :=
  (val.map char2oct).flatten

/-- Embeds BlobConverter.sql2py at lines 340-343: if the wire text starts
    with a backslash-x hex marker, the remainder is hex-decoded; otherwise
    doubled backslashes are collapsed first and then every backslash-octal
    run is replaced by its byte. -/
def sql2py (val : List Nat) : Option (List Nat) :=
  if val.take 2 = [92, 120] then unhexlify (val.drop 2)
  else some (octSub (collapseDoubledBackslashes val))

end BlobConverter

/- ------------------------------------------------------------------
   Text converters (postgres.py lines 140-201)
   ------------------------------------------------------------------ -/

namespace BasestringConverter

/-- Embeds BasestringConverter.init at lines 144-157 for an attribute whose
    positional length arguments are integers (a non-integer argument is a
    TypeError at line 153, outside the integer domain modelled here).
    Returns the configured max_len: None for a large-text kind with no
    argument, 200 when no argument is declared and the kind is bounded,
    the declared argument otherwise; a length argument on a large-text
    kind and more than one positional argument are errors. -/
def init (args : List Int) (isLong : Bool) : Except PyError (Option Int) :=
  match args with
  | [] => if isLong then .ok none else .ok (some 200)
  | [m] => if isLong then .error .typeError else .ok (some m)
  | _ => .error .typeError

/-- Embeds BasestringConverter.validate at lines 158-165, over the
    configured max_len and an optional string value (None reaches this
    code unchanged from UnicodeConverter.validate and len(None) raises a
    TypeError); a truthy max_len smaller than the length is a ValueError,
    then a zero length is a ValueError, and otherwise the value is
    returned unchanged. -/
def validate (max_len : Option Int) (val : Option (List Nat)) : Except PyError (List Nat) :=
  match val with
  | none => .error .typeError
  | some v =>
    if truthyInt max_len && decide ((v.length : Int) > max_len.getD 0) then .error .valueError
    else if v.length == 0 then .error .valueError
    else .ok v

end BasestringConverter

namespace UnicodeConverter

/-- Python values reaching UnicodeConverter.validate: None, a byte string,
    a unicode string, or anything else. -/
inductive Input where
  | pynone
  | str (bytes : List Nat)
  | uni (chars : List Nat)
  | other

/-- Embeds the str branch val.decode of ascii at line 175: bytes below 128
    decode to themselves, any other byte raises UnicodeDecodeError. -/
def decodeAscii (bs : List Nat) : Except PyError (List Nat) :=
  if bs.all (fun b => b < 128) then .ok bs else .error .unicodeDecodeError

/-- Embeds UnicodeConverter.validate at lines 173-178: None passes through
    unchanged, a byte string is decoded as ascii, a unicode value is kept,
    any other type is a TypeError; the result is handed to
    BasestringConverter.validate. -/
def validate (max_len : Option Int) (v : Input) : Except PyError (List Nat) :=
  match v with
  | .pynone => BasestringConverter.validate max_len none
  | .str bs =>
    match decodeAscii bs with
    | .ok u => BasestringConverter.validate max_len (some u)
    | .error e => .error e
  | .uni u => BasestringConverter.validate max_len (some u)
  | .other => .error .typeError

end UnicodeConverter

/- ------------------------------------------------------------------
   Integer converters (postgres.py lines 203-230)
   ------------------------------------------------------------------ -/

namespace IntConverter

/-- Configuration stored by IntConverter.init at lines 204-214: optional
    integral min and max bounds (init has already checked they are ints). -/
structure Config where
  min_val : Option Int
  max_val : Option Int

/-- Values reaching IntConverter.validate: an integral value or anything
    else. -/
inductive Input where
  | int (i : Int)
  | nonInt

/-- Embeds IntConverter.validate at lines 215-224: a non-integral value is
    a TypeError; then a truthy min_val greater than the value is a
    ValueError, a truthy max_val smaller than the value is a ValueError,
    and otherwise the value is returned unchanged. -/
def validate (c : Config) (v : Input) : Except PyError Int :=
  match v with
  | .nonInt => .error .typeError
  | .int val =>
    if truthyInt c.min_val && decide (val < c.min_val.getD 0) then .error .valueError
    else if truthyInt c.max_val && decide (val > c.max_val.getD 0) then .error .valueError
    else .ok val

end IntConverter

/- ------------------------------------------------------------------
   Decimal converter (postgres.py lines 262-315)
   ------------------------------------------------------------------ -/

namespace DecimalConverter

/-- Configuration stored by DecimalConverter.init: precision, scale, and
    the optional exact-decimal bounds. -/
structure Config where
  precision : Int
  scale : Int
  min_val : Option ℚ
  max_val : Option ℚ

/-- Values reaching DecimalConverter.validate: a value that already is a
    Decimal, a value that Decimal() coerces successfully, or a value on
    which Decimal() raises InvalidOperation. -/
inductive Input where
  | dec (q : ℚ)
  | coercible (q : ℚ)
  | bad
  deriving DecidableEq

/-- The precision and scale checks of DecimalConverter.init at lines
    272-287: non-positive precision is a TypeError, then non-positive
    scale is a TypeError, then scale above precision is a ValueError. -/
def initChecks (precision scale : Int) (mn mx : Option ℚ) : Except PyError Config :=
  if precision ≤ 0 then .error .typeError
  else if scale ≤ 0 then .error .typeError
  else if scale > precision then .error .valueError
  else .ok ⟨precision, scale, mn, mx⟩

/-- Embeds DecimalConverter.init at lines 265-302 for integer precision
    and scale arguments (a non-integer is a TypeError at lines 272 and
    279, outside the integer domain modelled here): more than two
    positional arguments is a TypeError; precision comes from the first
    positional argument or the precision keyword, defaulting to 12; scale
    from the second positional argument or the scale keyword, defaulting
    to 2; then the checks of initChecks run, and the already-coerced
    bounds are stored. -/
def init (args : List Int) (kwPrecision kwScale : Option Int) (mn mx : Option ℚ) :
    Except PyError Config :=
  match args with
  | [] => initChecks (kwPrecision.getD 12) (kwScale.getD 2) mn mx
  | [p] => initChecks p (kwScale.getD 2) mn mx
  | [p, s] => initChecks p s mn mx
  | _ => .error .typeError

/-- Embeds DecimalConverter.validate at lines 303-313: a Decimal value is
    returned at once, a coercible value is returned as Decimal(val), and a
    value on which the coercion raises InvalidOperation is a TypeError.
    The min_val and max_val comparisons at lines 308-313 stand after the
    unconditional returns of lines 304-305, so execution never reaches
    them and no bound is checked. -/
def validate (_c : Config) (v : Input) : Except PyError ℚ :=
  match v with
  | .dec q => .ok q
  | .coercible q => .ok q
  | .bad => .error .typeError

end DecimalConverter

/- ------------------------------------------------------------------
   Date converter (postgres.py lines 358-372)
   ------------------------------------------------------------------ -/

/-- A Python datetime.date value. -/
structure PyDate where
  year : Nat
  month : Nat
  day : Nat
  deriving DecidableEq

/-- A Python datetime.datetime value. -/
structure PyDatetime where
  year : Nat
  month : Nat
  day : Nat
  hour : Nat
  minute : Nat
  second : Nat
  deriving DecidableEq

/-- The date method of a datetime: its date component. -/
def PyDatetime.date (t : PyDatetime) : PyDate := ⟨t.year, t.month, t.day⟩

/-- Gregorian leap-year test, as in the datetime module. -/
def isLeapYear (y : Nat) : Bool := (y % 4 == 0 && y % 100 != 0) || y % 400 == 0

/-- Number of days of a month, as in the datetime module. -/
def daysInMonth (y m : Nat) : Nat :=
  if m = 2 then (if isLeapYear y then 29 else 28)
  else if m = 4 || m = 6 || m = 9 || m = 11 then 30
  else 31

/-- The year, month and day ranges accepted by the datetime constructor. -/
def validYMD (y m d : Nat) : Bool :=
  1 ≤ y && y ≤ 9999 && 1 ≤ m && m ≤ 12 && 1 ≤ d && d ≤ daysInMonth y m

/-- Is the byte an ASCII decimal digit. -/
def isDigitByte (c : Nat) : Bool := 48 ≤ c && c ≤ 57

/-- Embeds datetime.strptime with the year-month-day format used at line
    372, on the zero-padded YYYY-MM-DD literals the database returns for a
    DATE column: four digits, a dash, two digits, a dash, two digits, with
    the ranges the datetime constructor enforces; anything else raises
    ValueError. -/
def strptimeYMD (s : List Nat) : Except PyError PyDate :=
  match s with
  | [y3, y2, y1, y0, h1, m1, m0, h2, d1, d0] =>
    if h1 == 45 && h2 == 45 && isDigitByte y3 && isDigitByte y2 && isDigitByte y1
        && isDigitByte y0 && isDigitByte m1 && isDigitByte m0
        && isDigitByte d1 && isDigitByte d0 then
      let y := (y3 - 48) * 1000 + (y2 - 48) * 100 + (y1 - 48) * 10 + (y0 - 48)
      let m := (m1 - 48) * 10 + (m0 - 48)
      let d := (d1 - 48) * 10 + (d0 - 48)
      if validYMD y m d then .ok ⟨y, m, d⟩ else .error .valueError
    else .error .valueError
  | _ => .error .valueError

/-- Two-digit zero-padded decimal rendering of a number below 100. -/
def pad2 (n : Nat) : List Nat := [48 + n / 10 % 10, 48 + n % 10]

/-- Four-digit zero-padded decimal rendering of a number below 10000. -/
def pad4 (n : Nat) : List Nat :=
  [48 + n / 1000 % 10, 48 + n / 100 % 10, 48 + n / 10 % 10, 48 + n % 10]

/-- Models the wire round trip of a DATE column: the database stores the
    date part of the bound timestamp and the driver returns it as a
    zero-padded YYYY-MM-DD literal. -/
def dateWireLiteral (t : PyDatetime) : List Nat :=
  pad4 t.year ++ [45] ++ pad2 t.month ++ [45] ++ pad2 t.day

namespace DateConverter

/-- Values reaching DateConverter.validate: a datetime, a plain date, or
    anything else (isinstance checks datetime before date, mirroring that
    datetime is a subclass of date). -/
inductive Input where
  | dt (t : PyDatetime)
  | d (x : PyDate)
  | other

/-- Embeds DateConverter.validate at lines 362-366: a datetime value is
    truncated to its date component, a date value is returned unchanged,
    anything else is a TypeError. -/
def validate : Input → Except PyError PyDate
  | .dt t => .ok t.date
  | .d x => .ok x
  | .other => .error .typeError

/-- Embeds DateConverter.py2sql at lines 369-370: the date is expanded to
    a datetime at midnight. -/
def py2sql (x : PyDate) : PyDatetime := ⟨x.year, x.month, x.day, 0, 0, 0⟩

/-- Embeds DateConverter.sql2py at lines 371-372: the YYYY-MM-DD literal
    is parsed back into a date. -/
def sql2py (s : List Nat) : Except PyError PyDate := strptimeYMD s

end DateConverter

/- ------------------------------------------------------------------
   Connection lease (postgres.py lines 74-92)
   ------------------------------------------------------------------ -/

namespace Pool

/-- The mutable state of a Pool instance: the held connection handle, or
    None before the first connect and after close. Handles are numbered. -/
structure State where
  con : Option Nat
  deriving DecidableEq

/-- The observable outcome of Pool.release: the pool state afterwards,
    whether con.close() was called on the physical connection, and the
    exception propagating to the caller, if any. -/
structure ReleaseRes where
  pool : State
  closeCalled : Bool
  err : Option PyError
  deriving DecidableEq

/-- Embeds Pool.connect at lines 79-82: when no connection is held a new
    physical connection (the fresh handle supplied by the driver factory)
    is opened and stored; the held connection is returned. The Bool
    records whether the driver factory was invoked. -/
def connect (p : State) (fresh : Nat) : State × Nat × Bool :=
  match p.con with
  | some c => (p, c, false)
  | none => (⟨some fresh⟩, fresh, true)

/-- Embeds Pool.close at lines 89-92: the assert demands the released
    handle is the held one; the held handle is cleared and con.close() is
    called. Returns the new state and whether con.close() was called. -/
def close (p : State) (c : Nat) : Except PyError (State × Bool) :=
  if p.con == some c then .ok (⟨none⟩, true) else .error .assertionError

/-- Embeds Pool.release at lines 83-88: the assert demands the released
    handle is the held one; con.rollback() is attempted (rollbackFails
    says whether it raises); on success nothing else happens, on failure
    Pool.close runs and the rollback failure is re-raised. -/
def release (p : State) (c : Nat) (rollbackFails : Bool) : ReleaseRes :=
  if p.con == some c then
    if rollbackFails then
      match close p c with
      | .ok (p2, closedFlag) => ⟨p2, closedFlag, some .databaseError⟩
      | .error e => ⟨p, false, some e⟩
    else ⟨p, false, none⟩
  else ⟨p, false, some .assertionError⟩

end Pool

/- ------------------------------------------------------------------
   Idempotent table creation (postgres.py lines 23-33)
   ------------------------------------------------------------------ -/

namespace PGTable

/-- The outcome of the inner dbschema.Table.create call at line 25:
    success, a DatabaseError with a message, or any other exception (not
    caught by the except clause at line 26). -/
inductive InnerResult where
  | ok
  | dbError (msg : List Char)
  | otherError

/-- What PGTable.create lets escape to its caller. -/
inductive Outcome where
  | success
  | raisedDb (msg : List Char)
  | raisedOther
  deriving DecidableEq

/-- The observable result of PGTable.create: what escapes, and whether
    connection.rollback was issued. -/
structure CreateResult where
  outcome : Outcome
  rolledBack : Bool
  deriving DecidableEq

/-- The message fragment tested at line 27. -/
def alreadyExistsPat : List Char := "already exists".toList

/-- Embeds PGTable.create at lines 24-31: the inner create runs; a
    DatabaseError whose message holds the already-exists fragment is
    swallowed and the connection rolled back; any other DatabaseError is
    re-raised without rollback; any other exception propagates uncaught. -/
def create (inner : InnerResult) : CreateResult :=
  match inner with
  | .ok => ⟨.success, false⟩
  | .dbError msg =>
    if containsSub alreadyExistsPat msg then ⟨.success, true⟩
    else ⟨.raisedDb msg, false⟩
  | .otherError => ⟨.raisedOther, false⟩

end PGTable


/- ==================================================================
   Theorems
   ================================================================== -/

/-- Parsing a zero-padded YYYY-MM-DD literal built from y, m, d recovers
    exactly those components, subject to the calendar validity check. -/
theorem strptimeYMD_pad (y m d : Nat) (hy : y ≤ 9999) (hm : m ≤ 99) (hd : d ≤ 99) :
    strptimeYMD (dateWireLiteral ⟨y, m, d, 0, 0, 0⟩) =
      if validYMD y m d then .ok ⟨y, m, d⟩ else .error .valueError := by
  have e1 : (48 + y / 1000 % 10 - 48) * 1000 + (48 + y / 100 % 10 - 48) * 100
      + (48 + y / 10 % 10 - 48) * 10 + (48 + y % 10 - 48) = y := by omega
  have e2 : (48 + m / 10 % 10 - 48) * 10 + (48 + m % 10 - 48) = m := by omega
  have e3 : (48 + d / 10 % 10 - 48) * 10 + (48 + d % 10 - 48) = d := by omega
  simp only [dateWireLiteral, pad4, pad2, List.cons_append, List.nil_append, strptimeYMD]
  rw [if_pos]
  · rw [e1, e2, e3]
  · simp [isDigitByte]
    omega

/-- Every month has at most 31 days. -/
theorem daysInMonth_le (y m : Nat) : daysInMonth y m ≤ 31 := by
  unfold daysInMonth
  split_ifs <;> simp

/-- Unfolding of IntConverter.validate on an integral value. -/
theorem intValidate_int (mn mx : Option Int) (v : Int) :
    IntConverter.validate ⟨mn, mx⟩ (.int v) =
      if truthyInt mn && decide (v < mn.getD 0) then .error .valueError
      else if truthyInt mx && decide (v > mx.getD 0) then .error .valueError
      else .ok v := rfl

/-- Claim C1: the binary codec round trip fails. Encoding the byte
    sequence backslash, 0, 0, 1 doubles the backslash and keeps the three
    printable digit bytes; decoding first collapses the doubled backslash
    and then mistakes the result for a backslash-octal escape, returning
    the single byte 1 instead of the original four bytes. -/
theorem blob_octal_roundtrip_failure :
    BlobConverter.py2sql [92, 48, 48, 49] = [92, 92, 48, 48, 49] ∧
    BlobConverter.sql2py (BlobConverter.py2sql [92, 48, 48, 49]) = some [1] ∧
    BlobConverter.sql2py (BlobConverter.py2sql [92, 48, 48, 49]) ≠ some [92, 48, 48, 49] :=
  ⟨rfl, rfl, by decide⟩

/-- Claim C2: the Decimal bound checks are dead code. With min 0 and max
    10 configured, validate returns the out-of-range value 100 instead of
    raising a range error, both for a Decimal input and for a coercible
    input, because validate returns before the bound comparisons. -/
theorem decimal_validate_ignores_bounds :
    DecimalConverter.validate ⟨12, 2, some 0, some 10⟩ (.dec 100) = .ok 100 ∧
    DecimalConverter.validate ⟨12, 2, some 0, some 10⟩ (.coercible 100) = .ok 100 :=
  ⟨rfl, rfl⟩

/-- Claim C3: the Date converter truncates a datetime to its date
    component, and deserializing the serialization of any calendar-valid
    date yields that date again. -/
theorem date_validate_and_roundtrip (t : PyDatetime) (x : PyDate)
    (h : validYMD x.year x.month x.day = true) :
    DateConverter.validate (.dt t) = .ok t.date ∧
    DateConverter.sql2py (dateWireLiteral (DateConverter.py2sql x)) = .ok x := by
  obtain ⟨y, m, d⟩ := x
  refine ⟨rfl, ?_⟩
  have hdm := daysInMonth_le y m
  have hb : y ≤ 9999 ∧ m ≤ 99 ∧ d ≤ 99 := by
    simp only [validYMD, Bool.and_eq_true, decide_eq_true_eq] at h
    omega
  show strptimeYMD (dateWireLiteral ⟨y, m, d, 0, 0, 0⟩) = .ok ⟨y, m, d⟩
  rw [strptimeYMD_pad y m d hb.1 hb.2.1 hb.2.2, if_pos h]

/-- Witness for C3 at a concrete leap-year datetime and date. -/
theorem date_validate_and_roundtrip_witness :
    DateConverter.validate (.dt ⟨2024, 2, 29, 13, 45, 59⟩) = .ok ⟨2024, 2, 29⟩ ∧
    DateConverter.sql2py (dateWireLiteral (DateConverter.py2sql ⟨2024, 2, 29⟩)) = .ok ⟨2024, 2, 29⟩ :=
  date_validate_and_roundtrip ⟨2024, 2, 29, 13, 45, 59⟩ ⟨2024, 2, 29⟩ (by decide)

/-- Counterexample for C4: with a configured min bound of exactly 0 the
    falsy-zero check disables the minimum test, so the value min minus one
    is accepted instead of rejected. -/
theorem int_validate_zero_bound_cex :
    IntConverter.validate ⟨some 0, none⟩ (.int (0 - 1)) = .ok (0 - 1) := by decide

/-- Claim C4 as amended: when every configured bound is nonzero (and min
    is at most max when both are set), validate accepts the values equal
    to min and to max and rejects min minus one and max plus one. -/
theorem int_validate_bounds_nonzero (mn mx : Option Int)
    (hmn : ∀ a, mn = some a → a ≠ 0)
    (hmx : ∀ b, mx = some b → b ≠ 0)
    (hord : ∀ a b, mn = some a → mx = some b → a ≤ b) :
    (∀ a, mn = some a →
      IntConverter.validate ⟨mn, mx⟩ (.int a) = .ok a ∧
      IntConverter.validate ⟨mn, mx⟩ (.int (a - 1)) = .error .valueError) ∧
    (∀ b, mx = some b →
      IntConverter.validate ⟨mn, mx⟩ (.int b) = .ok b ∧
      IntConverter.validate ⟨mn, mx⟩ (.int (b + 1)) = .error .valueError) := by
  constructor
  · rintro a rfl
    have ha := hmn a rfl
    cases mx with
    | none =>
      constructor <;> simp [intValidate_int, truthyInt, ha]
    | some b =>
      have hb := hmx b rfl
      have hab := hord a b rfl rfl
      constructor
      · simp [intValidate_int, truthyInt, ha, hb]
        omega
      · simp [intValidate_int, truthyInt, ha, hb]
  · rintro b rfl
    have hb := hmx b rfl
    cases mn with
    | none =>
      constructor <;> simp [intValidate_int, truthyInt, hb]
    | some a =>
      have ha := hmn a rfl
      have hab := hord a b rfl rfl
      constructor
      · simp [intValidate_int, truthyInt, ha, hb]
        omega
      · simp [intValidate_int, truthyInt, ha, hb]

/-- Witness for amended C4 with min 1 and max 10. -/
theorem int_validate_bounds_nonzero_witness :
    IntConverter.validate ⟨some 1, some 10⟩ (.int 1) = .ok 1 ∧
    IntConverter.validate ⟨some 1, some 10⟩ (.int (1 - 1)) = .error .valueError ∧
    IntConverter.validate ⟨some 1, some 10⟩ (.int 10) = .ok 10 ∧
    IntConverter.validate ⟨some 1, some 10⟩ (.int (10 + 1)) = .error .valueError := by
  have h := int_validate_bounds_nonzero (some 1) (some 10)
    (fun a ha => by simp at ha; omega)
    (fun b hb => by simp at hb; omega)
    (fun a b ha hb => by simp at ha hb; omega)
  have h1 := h.1 1 rfl
  have h2 := h.2 10 rfl
  exact ⟨h1.1, h1.2, h2.1, h2.2⟩

/-- Claim C5: a CREATE failure whose message holds the already-exists
    fragment is swallowed and the connection rolled back; any other
    database failure propagates unchanged with no rollback; a successful
    CREATE neither fails nor rolls back. -/
theorem pgtable_create_idempotent (msg : List Char) :
    (containsSub PGTable.alreadyExistsPat msg = true →
      PGTable.create (.dbError msg) = ⟨.success, true⟩) ∧
    (containsSub PGTable.alreadyExistsPat msg = false →
      PGTable.create (.dbError msg) = ⟨.raisedDb msg, false⟩) ∧
    PGTable.create .ok = ⟨.success, false⟩ := by
  refine ⟨fun h => ?_, fun h => ?_, rfl⟩ <;> simp [PGTable.create, h]

/-- Witness for C5 on a matching and on a non-matching error message. -/
theorem pgtable_create_idempotent_witness :
    PGTable.create (.dbError ("table t1 already exists".toList)) = ⟨.success, true⟩ ∧
    PGTable.create (.dbError ("duplicate key".toList)) =
      ⟨.raisedDb ("duplicate key".toList), false⟩ :=
  ⟨(pgtable_create_idempotent ("table t1 already exists".toList)).1 (by decide),
   (pgtable_create_idempotent ("duplicate key".toList)).2.1 (by decide)⟩

/-- Claim C6: releasing the held connection with a successful rollback
    keeps the same handle held, closes nothing and raises nothing; a
    failed rollback closes the connection, clears the held handle and
    re-raises the failure. -/
theorem pool_release_rollback_semantics (p : Pool.State) (c : Nat) (h : p.con = some c) :
    Pool.release p c false = ⟨p, false, none⟩ ∧
    Pool.release p c true = ⟨⟨none⟩, true, some .databaseError⟩ := by
  simp [Pool.release, Pool.close, h]

/-- Witness for C6 with connection handle 7 held. -/
theorem pool_release_rollback_semantics_witness :
    Pool.release ⟨some 7⟩ 7 false = ⟨⟨some 7⟩, false, none⟩ ∧
    Pool.release ⟨some 7⟩ 7 true = ⟨⟨none⟩, true, some .databaseError⟩ :=
  pool_release_rollback_semantics ⟨some 7⟩ 7 rfl

/-- Counterexample for C7: a configured max_len of exactly 0 is accepted
    by init, yet the falsy-zero check disables the length test, so a
    two-byte value whose length exceeds 0 is accepted. -/
theorem text_maxlen_zero_cex :
    BasestringConverter.init [0] false = .ok (some 0) ∧
    BasestringConverter.validate (some 0) (some [97, 98]) = .ok [97, 98] :=
  ⟨rfl, by decide⟩

/-- Claim C7 as amended: for a nonzero configured max_len, validate
    rejects every value longer than max_len; and with no length argument
    on a length-bounded kind, init configures max_len as 200. -/
theorem text_maxlen_nonzero (m : Int) (v : List Nat) (hm : m ≠ 0)
    (hv : (v.length : Int) > m) :
    BasestringConverter.validate (some m) (some v) = .error .valueError ∧
    BasestringConverter.init [] false = .ok (some 200) := by
  refine ⟨?_, rfl⟩
  simp [BasestringConverter.validate, truthyInt, hm, hv]

/-- Witness for amended C7 with max_len 3 and a four-byte value. -/
theorem text_maxlen_nonzero_witness :
    BasestringConverter.validate (some 3) (some [97, 98, 99, 100]) = .error .valueError ∧
    BasestringConverter.init [] false = .ok (some 200) :=
  text_maxlen_nonzero 3 [97, 98, 99, 100] (by decide) (by decide)

/-- Claim C8: Decimal converter construction fails exactly when scale is
    above precision, precision is not positive, or scale is not positive;
    and validate never fails for any reason other than a failed numeric
    coercion, so these configuration errors never arise at value time. -/
theorem decimal_init_config_errors (p s : Int) (mn mx : Option ℚ) :
    (isError (DecimalConverter.init [p, s] none none mn mx) = true ↔
      (s > p ∨ p ≤ 0 ∨ s ≤ 0)) ∧
    (∀ c v, isError (DecimalConverter.validate c v) = true ↔ v = .bad) := by
  constructor
  · simp only [DecimalConverter.init, DecimalConverter.initChecks]
    split_ifs <;> simp [isError] <;> omega
  · intro c v
    cases v <;> simp [DecimalConverter.validate, isError]

/-- Witness for C8 at precision 12 and scale 14. -/
theorem decimal_init_config_errors_witness :
    (isError (DecimalConverter.init [12, 14] none none none none) = true ↔
      ((14 : Int) > 12 ∨ (12 : Int) ≤ 0 ∨ (14 : Int) ≤ 0)) ∧
    (∀ c v, isError (DecimalConverter.validate c v) = true ↔ v = .bad) :=
  decimal_init_config_errors 12 14 none none

/-- Claim C9: calling connect twice in a row returns the identical handle
    and the second call never invokes the driver factory. -/
theorem pool_connect_same_handle (p : Pool.State) (f1 f2 : Nat) :
    (Pool.connect (Pool.connect p f1).1 f2).2.1 = (Pool.connect p f1).2.1 ∧
    (Pool.connect (Pool.connect p f1).1 f2).2.2 = false := by
  cases h : p.con <;> simp [Pool.connect, h]

/-- Witness for C9 starting from an unopened pool. -/
theorem pool_connect_same_handle_witness :
    (Pool.connect (Pool.connect ⟨none⟩ 1).1 2).2.1 = (Pool.connect ⟨none⟩ 1).2.1 ∧
    (Pool.connect (Pool.connect ⟨none⟩ 1).1 2).2.2 = false :=
  pool_connect_same_handle ⟨none⟩ 1 2

/-- Claim C10: the Unicode converter passes None unchanged into the shared
    base validation, where taking the length of None raises a TypeError,
    whatever max_len is configured; None is never an accepted input. -/
theorem unicode_validate_none_raises (max_len : Option Int) :
    UnicodeConverter.validate max_len .pynone = .error .typeError := rfl

/-- Witness for C10 with the default bounded max_len of 200. -/
theorem unicode_validate_none_raises_witness :
    UnicodeConverter.validate (some 200) .pynone = .error .typeError :=
  unicode_validate_none_raises (some 200)
